import Mathlib

/-!
Verification of FOAMChalak's Run Pipeline Orchestrator against its
natural-language specification.

The definitions below are a shallow embedding of the Python sources:
`app.py` (Flask control surface: `run_simulation`, `run_of_command`,
`run_simulation_thread`, `stop_simulation`, `read_process_output`),
`foamlib_docker_test.py` (`run_openfoam_command`, `main`),
`main.py` (`load_case_root`, `save_case_root`) and
`foamlib_app.py` (`load_config`, `save_config`).

Processes, the Docker daemon and the filesystem are modelled by explicit
oracle records whose fields fix the outcome of each external operation
(exit codes, whether a pull or container creation succeeds, the contents
of the config file); the embedded functions are then pure functions of
those oracles, mirroring the Python control flow statement by statement.
-/

namespace FOAMChalak

/-! ## Global process slot (`app.py` lines 18-20, 26-31, 425-438)

`app.py` keeps one module-level variable `current_process` (initially
`None`).  A subprocess handle is modelled by the one observable that the
guards consult: whether `poll()` reports that the process has exited
(`poll() is not None`). -/

/-- A `subprocess.Popen` handle as observed by `app.py`'s guards:
`exited = true` means `poll()` returns a value, `exited = false` means
`poll()` is `None` (still running). -/
structure Proc where
  exited : Bool
deriving DecidableEq, Repr

/-- The module-level mutable state of `app.py`: the `current_process`
global (line 19) and whether a `run_simulation_thread` worker is active.
The source contains a `thread.start()` at line 394, but it sits inside
the `except` block of lines 70-423, after the unconditional `return` at
lines 73-76, so it is unreachable and the flag stays `false` in every
reachable state; it is kept in the state so that the stop claims can be
stated over arbitrary states. -/
structure AppState where
  currentProcess : Option Proc
  threadActive : Bool
deriving DecidableEq, Repr

/-- The state at module import: `current_process = None` (line 19), no
worker thread. -/
def initialAppState : AppState := ⟨none, false⟩

/-- Response of `POST /api/run_simulation`. -/
inductive StartResponse
  /-- The 400 response `'A simulation is already running'` (line 31):
  the spec's `AlreadyRunningError`. -/
  | alreadyRunningError
  /-- One of the 500 responses from the `except` block (lines 70-76):
  the `try` of lines 36-68 raised. -/
  | setupError
  /-- The view function fell off the end and returned `None`, which
  Flask surfaces as a 500.  The `'started'` response built at
  lines 396-415 is unreachable: lines 78-423 are inside the `except`
  block after the `return` at lines 73-76. -/
  | noneReturned
deriving DecidableEq, Repr

/-- The guard at `app.py` line 30:
`if current_process and current_process.poll() is None`.
Python truthiness makes `None` falsy, so the guard fires exactly when
`current_process` holds a process whose `poll()` is still `None`. -/
def alreadyRunningGuard (cp : Option Proc) : Bool :=
  match cp with
  | none => false
  | some p => !p.exited

/-- `run_simulation` (`app.py` lines 26-423): reject with the 400 when
the line-30 guard fires; otherwise run the `try` of lines 36-68 (script
lookup, run-directory creation), whose failure (`setupRaises`) produces
a 500 from the `except` block.  When the `try` succeeds, control skips
the `except` block — and with it everything at lines 78-423, including
the log-file header, `run_of_command`, `run_simulation_thread`, the
`thread.start()` at line 394 and the `'started'` response at 396-415,
all of which sit after the `return` at lines 73-76 — so the function
returns `None`.  No branch mutates `current_process` or starts a worker
thread; the only assignments to `current_process` in the whole module
are `None` (lines 19, 385, 435). -/
def run_simulation (s : AppState) (setupRaises : Bool) :
    StartResponse × AppState :=
  if alreadyRunningGuard s.currentProcess then
    (StartResponse.alreadyRunningError, s)
  else if setupRaises then
    (StartResponse.setupError, s)
  else
    (StartResponse.noneReturned, s)

/-- Response of `POST /api/stop_simulation`. -/
inductive StopResponse
  /-- The 200 response `'Simulation stopped'` (line 436). -/
  | stopped
  /-- The 400 response `'No simulation is currently running'`
  (line 430). -/
  | noSimulationError
deriving DecidableEq, Repr

/-- Everything observable about one `stop_simulation` call: the HTTP
response, the resulting global state, the POSIX signals sent to the
process group in order, and how many seconds the handler waited between
a polite signal and a forced kill. -/
structure StopEffect where
  response : StopResponse
  state : AppState
  signalsSent : List Nat
  graceWaitSeconds : Nat
deriving DecidableEq, Repr

/-- `stop_simulation` (`app.py` lines 425-438): return the 400 error if
`current_process is None or current_process.poll() is not None`;
otherwise execute `os.killpg(os.getpgid(current_process.pid), 9)` —
a single immediate SIGKILL (signal 9), with no preceding SIGTERM and no
grace wait — and set `current_process = None`. -/
def stop_simulation (s : AppState) : StopEffect :=
  match s.currentProcess with
  | none => ⟨StopResponse.noSimulationError, s, [], 0⟩
  | some p =>
    if p.exited then
      ⟨StopResponse.noSimulationError, s, [], 0⟩
    else
      ⟨StopResponse.stopped, { s with currentProcess := none }, [9], 0⟩

/-- A stop target is terminal when `current_process` is absent or its
process has already exited — the states in which the spec says a second
`stop()` should be a no-op returning the current state. -/
def terminalForStop (s : AppState) : Prop :=
  s.currentProcess = none ∨ ∃ p, s.currentProcess = some p ∧ p.exited = true

instance (s : AppState) : Decidable (terminalForStop s) := by
  unfold terminalForStop
  cases h : s.currentProcess with
  | none => exact isTrue (Or.inl rfl)
  | some p =>
    cases hp : p.exited with
    | true => exact isTrue (Or.inr ⟨p, rfl, hp⟩)
    | false =>
      refine isFalse ?_
      rintro (hn | ⟨q, hq, hqe⟩)
      · exact Option.noConfusion hn
      · injection hq with hpq
        subst hpq
        rw [hp] at hqe
        exact Bool.noConfusion hqe

/-! ## Output broadcasting (`app.py` lines 300-329 and 498-555)

The durable log (`simulation.log`) and the stream delivered to websocket
subscribers are each a list of lines, in write/delivery order. -/

/-- `line.rstrip(chr 10)`: drop trailing newline characters. -/
def rstripNl (s : String) : String :=
  String.mk ((s.data.reverse.dropWhile (fun c => c.toNat = 10)).reverse)

/-- Python's `not line.strip()`: the line is empty or all whitespace. -/
def isBlank (s : String) : Bool :=
  s.data.all (fun c => c.isWhitespace)

/-- The durable log file contents and the sequence of lines emitted to
websocket subscribers, each in order. -/
structure BroadcastState where
  log : List String
  emitted : List String
deriving DecidableEq, Repr

/-- The body of the output loop of `run_of_command`
(`app.py` lines 311-317), applied to one line read from the step
process's stdout: `if line.strip(): socketio.emit('output', ...)`.
The line, with trailing newlines stripped, is emitted to subscribers;
nothing is written to any log file in this loop. -/
def runOfCommandPublish (st : BroadcastState) (line : String) : BroadcastState :=
  if isBlank line then st
  else { st with emitted := st.emitted ++ [rstripNl line] }

/-- `handle_output` from `read_process_output` (`app.py` lines 517-535):
skip falsy/blank lines; otherwise strip the trailing newline, append the
line to the log file, then emit it to subscribers. -/
def handle_output (st : BroadcastState) (line : String) : BroadcastState :=
  if line = "" ∨ isBlank line then st
  else
    let l := rstripNl line
    { log := st.log ++ [l], emitted := st.emitted ++ [l] }

/-! ## The pipeline worker (`app.py` lines 232-385)

`run_simulation_thread` drives the fixed pipeline
blockMesh, checkMesh, potentialFoam, simpleFoam, postProcessing.
Each step's external process is abstracted by its exit code, supplied by
an oracle; statuses are the literal strings stored by
`update_step_status`. -/

/-- Exit codes of the external commands the worker runs, plus whether
`system/sampleDict` exists in the run directory (`app.py` line 363). -/
structure ExitCodes where
  blockMesh : Int
  checkMesh : Int
  potentialFoam : Int
  simpleFoam : Int
  sampleDictExists : Bool
  sample : Int
  postProcess : Int
deriving DecidableEq, Repr

/-- The five per-step status strings of `process_info['steps']`
(`app.py` lines 237-243), updated by `update_step_status`. -/
structure StepStatuses where
  blockMesh : String
  checkMesh : String
  potentialFoam : String
  simpleFoam : String
  postProcessing : String
deriving DecidableEq, Repr

/-- All steps start `'pending'` (`app.py` lines 238-242). -/
def initialSteps : StepStatuses :=
  ⟨"pending", "pending", "pending", "pending", "pending"⟩

/-- `'completed' if return_code == 0 else 'failed'` (`app.py` line 323). -/
def statusOf (rc : Int) : String :=
  if rc = 0 then "completed" else "failed"

/-- Terminal outcome of the worker thread. -/
inductive RunOutcome
  /-- The `'Simulation completed successfully!'` emit (line 372). -/
  | completedEvent
  /-- The `socketio.emit('error', ...)` in the worker's `except` block
  (line 378): the Run ended in failure. -/
  | errorEvent
deriving DecidableEq, Repr

/-- `run_simulation_thread` (`app.py` lines 332-385), as a function from
the steps' exit codes to the final step statuses and the terminal event.

Control flow mirrors the source: a named step's `run_of_command` sets its
status to `'completed'`/`'failed'` from its exit code and raises
`CalledProcessError` on a nonzero exit unless the step is `'checkMesh'`
(line 326); the worker's `try` turns any raise into the error event, so a
nonzero `blockMesh`, `potentialFoam` or `simpleFoam` aborts the pipeline
with the remaining statuses untouched (still `'pending'`).  The checkMesh
call is additionally wrapped in `try/except: pass` (lines 341-344).  The
`sample` and `postProcess` commands run without a step name, so their
exit codes are ignored and `postProcessing` is always set `'completed'`
once reached (line 369). -/
def run_simulation_thread (env : ExitCodes) : StepStatuses × RunOutcome :=
  let s1 := { initialSteps with blockMesh := statusOf env.blockMesh }
  if env.blockMesh = 0 then
    let s2 := { s1 with checkMesh := statusOf env.checkMesh }
    let s3 := { s2 with potentialFoam := statusOf env.potentialFoam }
    if env.potentialFoam = 0 then
      let s4 := { s3 with simpleFoam := statusOf env.simpleFoam }
      if env.simpleFoam = 0 then
        ({ s4 with postProcessing := "completed" }, RunOutcome.completedEvent)
      else (s4, RunOutcome.errorEvent)
    else (s3, RunOutcome.errorEvent)
  else (s1, RunOutcome.errorEvent)

/-! ## Container backend (`foamlib_docker_test.py` lines 102-242)

`run_openfoam_command` creates a container with `remove=False` and
removes it with `container.remove(force=True)` in a `finally` block.
Each external operation's outcome is fixed by an oracle. -/

/-- Outcomes of the external operations performed by
`run_openfoam_command`: image pull, bashrc lookup (used only when no
`bashrc_path` argument is given), host-side directory setup, container
creation, log streaming, and the status code from `container.wait()`. -/
structure DockerEnv where
  pullOk : Bool
  bashrcProvided : Bool
  bashrcFound : Bool
  setupOk : Bool
  createOk : Bool
  logsOk : Bool
  statusCode : Int
deriving DecidableEq, Repr

/-- What one `run_openfoam_command` call did: its boolean result,
whether a container was created, and whether that container was removed
by the time the call returned. -/
structure CommandOutcome where
  success : Bool
  containerCreated : Bool
  containerRemoved : Bool
deriving DecidableEq, Repr

/-- `run_openfoam_command` (`foamlib_docker_test.py` lines 102-242):
return `False` early if the pull fails (line 119) or no bashrc is found
(line 124) — no container exists yet on those paths.  Inside the `try`,
a failure of the host-side setup or of `client.containers.run` itself
raises into `except` (line 218) with no container bound, so the
`finally` (lines 221-226) finds no `container` local and removes
nothing.  Once the container is created, every path — log-streaming
error (line 214), normal `container.wait()` — runs the `finally`, which
calls `container.remove(force=True)`. -/
def run_openfoam_command (env : DockerEnv) : CommandOutcome :=
  if !env.pullOk then ⟨false, false, false⟩
  else if !env.bashrcProvided && !env.bashrcFound then ⟨false, false, false⟩
  else if !env.setupOk then ⟨false, false, false⟩
  else if !env.createOk then ⟨false, false, false⟩
  else if !env.logsOk then ⟨false, true, true⟩
  else ⟨env.statusCode = 0, true, true⟩

/-! ## Pipeline driver (`foamlib_docker_test.py` lines 968-1068) -/

/-- Outcomes of the helper calls made by `main`, each abstracted to the
boolean the driver branches on. The diagnostic results
(`checkMeshOk`, `sampleOk`, `postProcessOk`) are consulted only for a
printed warning and never affect the return value, mirroring lines
1023-1026 and 1044-1051. -/
structure MainEnv where
  diskOk : Bool
  tutorialOk : Bool
  runDirOk : Bool
  pullOk : Bool
  bashrcFound : Bool
  blockMeshOk : Bool
  checkMeshOk : Bool
  potentialFoamOk : Bool
  simpleFoamOk : Bool
  sampleDictExists : Bool
  sampleOk : Bool
  postProcessOk : Bool
deriving DecidableEq, Repr

/-- An exception reaching `main`'s outer `try` from anywhere in its
body. -/
inductive PyExc
  /-- `KeyboardInterrupt` (handler at line 1059). -/
  | keyboardInterrupt
  /-- Any other `Exception` (handler at line 1062). -/
  | otherError
deriving DecidableEq, Repr

/-- `main` (`foamlib_docker_test.py` lines 968-1068): straight-line
driver returning `1` on each setup failure or fatal-step failure, `0`
after `simpleFoam` succeeds (checkMesh, sample and postProcess failures
only print warnings), `130` from the `KeyboardInterrupt` handler and `1`
from the generic `Exception` handler.  `exc` injects an exception raised
during the body, caught by the outer handlers. -/
def main (env : MainEnv) (exc : Option PyExc) : Int :=
  match exc with
  | some PyExc.keyboardInterrupt => 130
  | some PyExc.otherError => 1
  | none =>
    if !env.diskOk then 1
    else if !env.tutorialOk then 1
    else if !env.runDirOk then 1
    else if !env.pullOk then 1
    else if !env.bashrcFound then 1
    else if !env.blockMeshOk then 1
    else if !env.potentialFoamOk then 1
    else if !env.simpleFoamOk then 1
    else 0

/-! ## Config persistence (`main.py` lines 16-33, `foamlib_app.py`
lines 18-56) -/

/-- The fallback case root `os.path.abspath("tutorial_cases")`
(`main.py` lines 22, 25); path absolutization is not modelled. -/
def default_case_root : String := "tutorial_cases"

/-- The JSON file `case_config.json` as `load_case_root` sees it:
whether it exists and is readable, and the value of its `CASE_ROOT` key
if present. -/
structure CaseConfigFile where
  present : Bool
  caseRoot : Option String
deriving DecidableEq, Repr

/-- `save_case_root` (`main.py` lines 27-33) on the success path: write
`{"CASE_ROOT": case_root}` to the config file. -/
def save_case_root (p : String) : CaseConfigFile := ⟨true, some p⟩

/-- `load_case_root` (`main.py` lines 16-25): if the config file exists,
return `data.get("CASE_ROOT", os.path.abspath("tutorial_cases"))`,
otherwise the default. -/
def load_case_root (f : CaseConfigFile) : String :=
  if f.present then
    match f.caseRoot with
    | some v => v
    | none => default_case_root
  else default_case_root

/-- A `config.json` dictionary restricted to the three keys of
`DEFAULT_CONFIG` (`foamlib_app.py` lines 18-22); `none` models an
absent key. -/
structure FoamConfig where
  case_dir : Option String
  docker_image : Option String
  openfoam_version : Option String
deriving DecidableEq, Repr

/-- `DEFAULT_CONFIG` (`foamlib_app.py` lines 18-22). -/
def DEFAULT_CONFIG : FoamConfig :=
  ⟨some "", some "haldardhruv/ubuntu_noble_openfoam:v2412", some "2412"⟩

/-- `if key not in config: config[key] = value` for one key. -/
def fillKey (v d : Option String) : Option String :=
  match v with
  | some x => some x
  | none => d

/-- `save_config` (`foamlib_app.py` lines 50-56) on the success path:
the stored file holds exactly the given config. -/
def save_config (c : FoamConfig) : Option FoamConfig := some c

/-- `load_config` (`foamlib_app.py` lines 35-48): if `config.json`
exists and parses, read it and fill in any missing `DEFAULT_CONFIG`
keys; otherwise return a copy of the defaults. -/
def load_config (file : Option FoamConfig) : FoamConfig :=
  match file with
  | some c =>
    ⟨fillKey c.case_dir DEFAULT_CONFIG.case_dir,
     fillKey c.docker_image DEFAULT_CONFIG.docker_image,
     fillKey c.openfoam_version DEFAULT_CONFIG.openfoam_version⟩
  | none => DEFAULT_CONFIG

/-! ## Theorems -/

/-- C1: the spec requires `start` to create a Run and to reject with
`AlreadyRunningError` any start issued while a Run is Running.  The code
implements neither half: a start whose setup `try` succeeds returns
`None` (Flask 500) instead of `'started'`, mutates nothing — no Run is
created, no thread starts, `current_process` stays `None` — and a
second start right after behaves identically, again not rejected;
indeed no call of `run_simulation` from any state ever changes the
state, so no Run can ever reach `Running` and the already-running
rejection protocol is never exercised. -/
theorem start_endpoint_never_starts_a_run :
    (run_simulation initialAppState false).1 = StartResponse.noneReturned ∧
    (run_simulation initialAppState false).2 = initialAppState ∧
    (run_simulation (run_simulation initialAppState false).2 false).1 =
      StartResponse.noneReturned ∧
    (∀ s b, (run_simulation s b).2 = s) := by
  refine ⟨by decide, by decide, by decide, fun s b => ?_⟩
  unfold run_simulation
  split
  · rfl
  · split <;> rfl

/-- C2: the spec requires every published `OutputLine` to be written to
the durable log synchronously with publish.  The code violates this: the
publish loop of `run_of_command` — the only output path used by the
pipeline worker — delivers each nonblank line to subscribers but never
writes any line to the log file (its log stays unchanged on every
input), as witnessed concretely on the line `"Mesh OK"`. -/
theorem publish_path_never_writes_log :
    (∀ st line, (runOfCommandPublish st line).log = st.log) ∧
    (runOfCommandPublish ⟨[], []⟩ "Mesh OK").log = [] ∧
    (runOfCommandPublish ⟨[], []⟩ "Mesh OK").emitted = ["Mesh OK"] := by
  refine ⟨fun st line => ?_, by decide, by decide⟩
  unfold runOfCommandPublish
  split <;> rfl

/-- C3 counterexample: the claim says that after an Abort-policy step
(here blockMesh, exit code 1) fails, every later step ends with status
`Skipped`.  In the code the later steps end with status `"pending"`,
which is not `"skipped"` — no skipped status exists in the
implementation. -/
theorem aborted_pipeline_has_no_skipped_status :
    (run_simulation_thread ⟨1, 0, 0, 0, false, 0, 0⟩).1.checkMesh
      = "pending" ∧
    (run_simulation_thread ⟨1, 0, 0, 0, false, 0, 0⟩).1.checkMesh
      ≠ "skipped" := by
  decide

/-- C3 (amended): if an Abort-policy step (blockMesh, potentialFoam or
simpleFoam) exits nonzero, the Run ends with the error event, steps
before it carry their actual terminal statuses, and every later step is
never started, remaining `"pending"` (the implementation has no
`"skipped"` status). -/
theorem abort_step_failure_behavior (env : ExitCodes) :
    (env.blockMesh ≠ 0 →
      run_simulation_thread env =
        (⟨"failed", "pending", "pending", "pending", "pending"⟩,
         RunOutcome.errorEvent)) ∧
    (env.blockMesh = 0 → env.potentialFoam ≠ 0 →
      run_simulation_thread env =
        (⟨"completed", statusOf env.checkMesh, "failed", "pending",
          "pending"⟩, RunOutcome.errorEvent)) ∧
    (env.blockMesh = 0 → env.potentialFoam = 0 → env.simpleFoam ≠ 0 →
      run_simulation_thread env =
        (⟨"completed", statusOf env.checkMesh, "completed", "failed",
          "pending"⟩, RunOutcome.errorEvent)) := by
  refine ⟨fun hb => ?_, fun hb hp => ?_, fun hb hp hs => ?_⟩
  · simp [run_simulation_thread, statusOf, hb, initialSteps]
  · simp [run_simulation_thread, statusOf, hb, hp, initialSteps]
  · simp [run_simulation_thread, statusOf, hb, hp, hs, initialSteps]

/-- C3 witness: concrete pipeline in which potentialFoam (Abort policy)
exits 2: the run fails, earlier steps keep their actual statuses, later
steps stay pending. -/
theorem abort_step_failure_behavior_witness :
    run_simulation_thread ⟨0, 0, 2, 0, false, 0, 0⟩ =
      (⟨"completed", "completed", "failed", "pending", "pending"⟩,
       RunOutcome.errorEvent) := by
  have h := (abort_step_failure_behavior ⟨0, 0, 2, 0, false, 0, 0⟩).2.1
    rfl (by decide)
  simpa [statusOf] using h

/-- C4: if checkMesh (the ContinueOnFailure diagnostic step) exits
nonzero while every other step succeeds, the next step potentialFoam
still starts (and completes), the Run still ends with the completed
event, and checkMesh remains visible as `"failed"` — distinct from the
status of a never-started step and from any skipped marker. -/
theorem continue_on_failure_checkMesh (env : ExitCodes)
    (hb : env.blockMesh = 0) (hc : env.checkMesh ≠ 0)
    (hp : env.potentialFoam = 0) (hs : env.simpleFoam = 0) :
    (run_simulation_thread env).1.checkMesh = "failed" ∧
    (run_simulation_thread env).1.potentialFoam = "completed" ∧
    (run_simulation_thread env).2 = RunOutcome.completedEvent ∧
    (run_simulation_thread env).1.checkMesh ≠ "pending" ∧
    (run_simulation_thread env).1.checkMesh ≠ "skipped" := by
  simp [run_simulation_thread, statusOf, hb, hc, hp, hs, initialSteps]

/-- C4 witness: concrete pipeline where only checkMesh fails (exit 1):
the run completes, potentialFoam ran, checkMesh reads failed. -/
theorem continue_on_failure_checkMesh_witness :
    (run_simulation_thread ⟨0, 1, 0, 0, false, 0, 0⟩).1.checkMesh
        = "failed" ∧
    (run_simulation_thread ⟨0, 1, 0, 0, false, 0, 0⟩).1.potentialFoam
        = "completed" ∧
    (run_simulation_thread ⟨0, 1, 0, 0, false, 0, 0⟩).2
        = RunOutcome.completedEvent ∧
    (run_simulation_thread ⟨0, 1, 0, 0, false, 0, 0⟩).1.checkMesh
        ≠ "pending" ∧
    (run_simulation_thread ⟨0, 1, 0, 0, false, 0, 0⟩).1.checkMesh
        ≠ "skipped" :=
  continue_on_failure_checkMesh ⟨0, 1, 0, 0, false, 0, 0⟩
    rfl (by decide) rfl rfl

/-- C5 counterexample: the claim says a second `stop()` on an
already-stopped Run is a no-op returning the current state rather than
an error.  In the code the first stop on a live process succeeds, but
the second stop returns the 400 `noSimulationError` response. -/
theorem second_stop_returns_error :
    (stop_simulation (AppState.mk (some ⟨false⟩) true)).response
      = StopResponse.stopped ∧
    (stop_simulation
        (stop_simulation (AppState.mk (some ⟨false⟩) true)).state).response
      = StopResponse.noSimulationError := by
  decide

/-- C5 (amended): a `stop()` on an already-stopped or terminal Run
(current process absent or exited) leaves the state unchanged, sends no
signal and starts nothing — but it returns the 400
`'No simulation is currently running'` error rather than the current
state. -/
theorem stop_on_terminal_is_noop_error (s : AppState)
    (h : terminalForStop s) :
    stop_simulation s = ⟨StopResponse.noSimulationError, s, [], 0⟩ := by
  rcases h with hn | ⟨p, hp, he⟩
  · unfold stop_simulation
    rw [hn]
  · unfold stop_simulation
    rw [hp]
    simp [he]

/-- C5 witness: stopping when no process was ever recorded returns the
error and changes nothing. -/
theorem stop_on_terminal_is_noop_error_witness :
    stop_simulation (AppState.mk none false) =
      ⟨StopResponse.noSimulationError, AppState.mk none false, [], 0⟩ :=
  stop_on_terminal_is_noop_error (AppState.mk none false) (Or.inl rfl)

/-- C6 counterexample: the claim says stop first sends a polite
termination signal and never force-kills before the 5-second grace
period.  In the code, stopping a running process sends exactly one
signal — SIGKILL (9) — with a zero-second wait: an immediate force
kill with no polite signal and no grace period. -/
theorem stop_sends_immediate_sigkill :
    (stop_simulation (AppState.mk (some ⟨false⟩) true)).signalsSent
      = [9] ∧
    (stop_simulation (AppState.mk (some ⟨false⟩) true)).graceWaitSeconds
      = 0 := by
  decide

/-- C6 (amended): `stop_simulation` on a running local process
immediately sends SIGKILL (signal 9) to the process group — there is no
polite termination signal and no grace period — and clears
`current_process`. -/
theorem stop_running_kills_immediately (s : AppState) (p : Proc)
    (hp : s.currentProcess = some p) (hl : p.exited = false) :
    stop_simulation s =
      ⟨StopResponse.stopped, { s with currentProcess := none }, [9], 0⟩ := by
  unfold stop_simulation
  rw [hp]
  simp [hl]

/-- C6 witness: concrete running process, stopped: SIGKILL sent at
once. -/
theorem stop_running_kills_immediately_witness :
    stop_simulation (AppState.mk (some ⟨false⟩) true) =
      ⟨StopResponse.stopped, AppState.mk none true, [9], 0⟩ :=
  stop_running_kills_immediately (AppState.mk (some ⟨false⟩) true)
    ⟨false⟩ rfl rfl

/-- C7: on every exit path of `run_openfoam_command` — normal
completion, nonzero status, log-streaming failure — a container that
was created is removed by the `finally` block before the call returns;
paths that fail earlier never create a container, so none is leaked. -/
theorem container_removed_on_every_path (env : DockerEnv)
    (h : (run_openfoam_command env).containerCreated = true) :
    (run_openfoam_command env).containerRemoved = true := by
  rcases env with ⟨pullOk, bp, bf, so, co, lo, sc⟩
  cases pullOk <;> cases bp <;> cases bf <;> cases so <;> cases co <;>
    cases lo <;> simp_all [run_openfoam_command]

/-- C7 witness: a fully successful invocation creates a container and
removes it. -/
theorem container_removed_on_every_path_witness :
    (run_openfoam_command ⟨true, true, true, true, true, true, 0⟩).containerCreated
      = true ∧
    (run_openfoam_command ⟨true, true, true, true, true, true, 0⟩).containerRemoved
      = true :=
  ⟨by decide,
   container_removed_on_every_path ⟨true, true, true, true, true, true, 0⟩
     (by decide)⟩

/-- C8 counterexample: the claim says the surfaced exit code is 0 only
if every step ended Completed.  In the code, a run whose checkMesh step
fails (and whose other steps succeed) still returns exit code 0. -/
theorem exit_zero_with_failed_step :
    main ⟨true, true, true, true, true, true, false, true, true,
          false, true, true⟩ none = 0 ∧
    (⟨true, true, true, true, true, true, false, true, true,
      false, true, true⟩ : MainEnv).checkMeshOk = false := by
  decide

/-- C8 (amended): the exit code surfaced by `main` is 0 exactly when
setup succeeded and every Abort-policy (fatal) step — blockMesh,
potentialFoam, simpleFoam — succeeded; the diagnostic steps checkMesh,
sample and postProcess may fail without affecting the exit code, and any
fatal failure yields the nonzero code 1. -/
theorem exit_code_zero_iff_fatal_steps_ok (env : MainEnv) :
    main env none = 0 ↔
      (env.diskOk = true ∧ env.tutorialOk = true ∧ env.runDirOk = true ∧
       env.pullOk = true ∧ env.bashrcFound = true ∧
       env.blockMeshOk = true ∧ env.potentialFoamOk = true ∧
       env.simpleFoamOk = true) := by
  rcases env with ⟨d, t, r, pu, ba, b, c, po, si, sd, sa, pp⟩
  cases d <;> cases t <;> cases r <;> cases pu <;> cases ba <;> cases b <;>
    cases po <;> cases si <;> simp [main]

/-- C10 counterexample: the claim says `main` returns 1 on any step
failure.  In the code, a run whose postProcess step fails (all other
steps succeeding) returns 0, not 1. -/
theorem step_failure_not_mapped_to_one :
    main ⟨true, true, true, true, true, true, true, true, true,
          true, true, false⟩ none = 0 ∧
    (⟨true, true, true, true, true, true, true, true, true,
      true, true, false⟩ : MainEnv).postProcessOk = false := by
  decide

/-- C10 (amended): `main` never propagates an exception: for every
environment and every exception raised in its body it returns one of the
integers 0, 1 or 130; a `KeyboardInterrupt` yields exactly 130 (and 130
arises only from a `KeyboardInterrupt`), any other exception yields 1,
and on the exception-free path it returns 0 on full success of setup and
all fatal steps and 1 on any setup or fatal-step failure — but a
diagnostic-step failure (checkMesh, sample, postProcess) still yields
0. -/
theorem main_total_exit_codes (env : MainEnv) (exc : Option PyExc) :
    (main env exc = 0 ∨ main env exc = 1 ∨ main env exc = 130) ∧
    (exc = some PyExc.keyboardInterrupt → main env exc = 130) ∧
    (exc = some PyExc.otherError → main env exc = 1) ∧
    (main env exc = 130 → exc = some PyExc.keyboardInterrupt) := by
  rcases exc with _ | e
  · refine ⟨?_, by simp, by simp, ?_⟩
    · unfold main
      split_ifs <;> simp
    · unfold main
      split_ifs <;> simp
  · cases e <;> simp [main]

/-- C10 witness: a user interrupt makes `main` return 130. -/
theorem main_total_exit_codes_witness :
    main ⟨true, true, true, true, true, true, true, true, true,
          false, true, true⟩ (some PyExc.keyboardInterrupt) = 130 :=
  (main_total_exit_codes
    ⟨true, true, true, true, true, true, true, true, true,
     false, true, true⟩ (some PyExc.keyboardInterrupt)).2.1 rfl

/-- C9: case-root configuration round-trips: after a successful
`save_case_root p`, `load_case_root` returns `p`; and in the foamlib
variant, after `save_config c` for a config defining all three default
keys, `load_config` returns exactly `c` (agreeing with it on every
default key). -/
theorem config_roundtrip (p : String) (c : FoamConfig)
    (h1 : c.case_dir.isSome = true) (h2 : c.docker_image.isSome = true)
    (h3 : c.openfoam_version.isSome = true) :
    load_case_root (save_case_root p) = p ∧
    load_config (save_config c) = c := by
  refine ⟨rfl, ?_⟩
  rcases c with ⟨cd, di, ov⟩
  rcases cd with _ | x
  · simp at h1
  rcases di with _ | y
  · simp at h2
  rcases ov with _ | z
  · simp at h3
  rfl

/-- C9 witness: a concrete path and a concrete full config
round-trip. -/
theorem config_roundtrip_witness :
    load_case_root (save_case_root "/data/cases") = "/data/cases" ∧
    load_config (save_config
        ⟨some "/case", some "haldardhruv/ubuntu_noble_openfoam:v2412",
         some "2412"⟩) =
      ⟨some "/case", some "haldardhruv/ubuntu_noble_openfoam:v2412",
       some "2412"⟩ :=
  config_roundtrip "/data/cases"
    ⟨some "/case", some "haldardhruv/ubuntu_noble_openfoam:v2412",
     some "2412"⟩ rfl rfl rfl

end FOAMChalak
